import Mathlib

/-!
Verification of the contact-form relay Lambda
(`cdk/lambda/contact-form/index.js`) of MMeffert/mitchellmeffert.com.

The handler is embedded shallowly: the outcomes of the three external
calls (secret store, reCAPTCHA verification HTTPS request, SES email
send) are explicit inputs of type `World`, the module-level credential
cache is threaded explicitly, and `JSON.parse`/`JSON.stringify` of the
submission payload is modelled by a concrete codec.  Scores are
rationals.  An invocation that would throw an uncaught exception in JS
is modelled by a `none` response.
-/

namespace ContactForm

/-- A contact-form submission: the five fields the handler reads off the
normalized body (`body.name`, `body.email`, `body.subject`,
`body.message`, `body.recaptchaToken`). -/
structure Submission where
  name : String
  email : String
  subject : String
  message : String
  recaptchaToken : String
deriving DecidableEq, Repr

/-- Environment-provided configuration (index.js lines 9-17):
`SENDER_EMAIL`, `RECEIVER_EMAIL`, `EMAIL_SUBJECT`,
`RECAPTCHA_SCORE_THRESHOLD` (parsed float, default 0.5).  The site key,
project id and secret name do not influence observable behaviour in the
model and are omitted. -/
structure Config where
  sender : String
  receiver : String
  emailSubject : String
  threshold : ℚ
deriving DecidableEq, Repr

/-! ## JSON codec for the submission payload

`JSON.stringify` of a flat five-string-field object and the matching
fragment of `JSON.parse`, used by the handler when the invocation
envelope carries the submission as an encoded string (line 38). -/

/-- One character of JSON string escaping, as `JSON.stringify` emits it
for the characters it must escape. -/
def escChar (c : Char) : List Char :=
  if c = '"' then ['\\', '"']
  else if c = '\\' then ['\\', '\\']
  else if c = '\n' then ['\\', 'n']
  else if c = '\t' then ['\\', 't']
  else if c = '\r' then ['\\', 'r']
  else [c]

/-- Escape a string body for inclusion between JSON quotes. -/
def escape : List Char → List Char
  | [] => []
  | c :: cs => escChar c ++ escape cs

/-- Reverse of `escChar` on the character following a backslash. -/
def unescChar (c : Char) : Option Char :=
  if c = '"' then some '"'
  else if c = '\\' then some '\\'
  else if c = 'n' then some '\n'
  else if c = 't' then some '\t'
  else if c = 'r' then some '\r'
  else none

/-- Parse a JSON string body up to (and consuming) the closing quote,
returning the unescaped characters and the rest of the input. -/
def unescParse : List Char → Option (List Char × List Char)
  | [] => none
  | c :: rest =>
    if c = '"' then some ([], rest)
    else if c = '\\' then
      match rest with
      | [] => none
      | e :: rest' =>
        match unescChar e with
        | none => none
        | some d =>
          match unescParse rest' with
          | none => none
          | some (s, r) => some (d :: s, r)
    else
      match unescParse rest with
      | none => none
      | some (s, r) => some (c :: s, r)
termination_by l => l.length
decreasing_by
  all_goals simp
  omega

/-- Consume an expected literal prefix. -/
def dropPre : List Char → List Char → Option (List Char)
  | [], r => some r
  | _ :: _, [] => none
  | p :: ps, c :: cs => if p = c then dropPre ps cs else none

/-- Parse a quoted JSON string (expects the opening quote). -/
def parseQuoted (l : List Char) : Option (List Char × List Char) :=
  match l with
  | [] => none
  | c :: rest => if c = '"' then unescParse rest else none

/-- `JSON.stringify` of a submission object, keys in field order: each
field value sits between a `:"` and a `"`, with its body escaped. -/
def stringifySubmission (s : Submission) : String :=
  ⟨("\x7b\"name\":").data ++ '"' :: (escape s.name.data ++
   '"' :: ((",\"email\":").data ++ '"' :: (escape s.email.data ++
   '"' :: ((",\"subject\":").data ++ '"' :: (escape s.subject.data ++
   '"' :: ((",\"message\":").data ++ '"' :: (escape s.message.data ++
   '"' :: ((",\"recaptchaToken\":").data ++
     '"' :: (escape s.recaptchaToken.data ++ '"' :: ['}'])))))))))⟩

/-- `JSON.parse` of a submission payload string; `none` models a thrown
`SyntaxError`. -/
def parseSubmissionJson (raw : String) : Option Submission :=
  match dropPre ("\x7b\"name\":").data raw.data with
  | none => none
  | some r0 =>
    match parseQuoted r0 with
    | none => none
    | some (name, r1) =>
      match dropPre (",\"email\":").data r1 with
      | none => none
      | some r2 =>
        match parseQuoted r2 with
        | none => none
        | some (email, r3) =>
          match dropPre (",\"subject\":").data r3 with
          | none => none
          | some r4 =>
            match parseQuoted r4 with
            | none => none
            | some (subject, r5) =>
              match dropPre (",\"message\":").data r5 with
              | none => none
              | some r6 =>
                match parseQuoted r6 with
                | none => none
                | some (message, r7) =>
                  match dropPre (",\"recaptchaToken\":").data r7 with
                  | none => none
                  | some r8 =>
                    match parseQuoted r8 with
                    | none => none
                    | some (token, r9) =>
                      if r9 = ['}'] then
                        some ⟨⟨name⟩, ⟨email⟩, ⟨subject⟩, ⟨message⟩, ⟨token⟩⟩
                      else none

/-! ## Invocation envelope and body normalization (lines 36-41) -/

/-- The `body` field of the invocation event: absent (or otherwise
falsy), a string, or an object. -/
inductive EventBody where
  | absent
  | str (raw : String)
  | obj (s : Submission)
deriving DecidableEq, Repr

/-- The invocation event: its `body` field plus the submission fields
carried on the envelope itself (used when `body` is absent, in which
case `body = event`). -/
structure Event where
  body : EventBody
  self : Submission
deriving DecidableEq, Repr

/-- Lines 36-41: `let body = event; if (typeof event.body === 'string')
body = JSON.parse(event.body); else if (event.body) body = event.body;`.
`none` models the uncaught `JSON.parse` exception. -/
def normalizeBody (e : Event) : Option Submission :=
  match e.body with
  | .str raw => parseSubmissionJson raw
  | .obj s => some s
  | .absent => some e.self

/-! ## Credential cache (lines 20-30) -/

/-- JS truthiness of the `cachedApiKey` module variable: `null` and the
empty string are falsy. -/
def isTruthyStr : Option String → Bool
  | some s => decide (s ≠ "")
  | none => false

/-- `getRecaptchaApiKey` (lines 22-30), with the module-level
`cachedApiKey` threaded explicitly and the outcome of
`secretsManager.send` given as `secretResult`.  Returns the number of
secret-store calls made, the key (or the thrown error), and the new
cache value. -/
def getRecaptchaApiKey (cache : Option String)
    (secretResult : Except Unit String) :
    Nat × Except Unit String × Option String :=
  if isTruthyStr cache then
    (0, .ok (cache.getD ""), cache)
  else
    match secretResult with
    | .ok s => (1, .ok s, some s)
    | .error e => (1, .error e, cache)

/-! ## reCAPTCHA verification (lines 96-151) -/

/-- The `tokenProperties` object of a verification response. -/
structure TokenProperties where
  valid : Bool
  action : Option String
deriving DecidableEq, Repr

/-- The `riskAnalysis` object of a verification response; `score` may be
absent. -/
structure RiskAnalysis where
  score : Option ℚ
deriving DecidableEq, Repr

/-- A parsed JSON response of the verification service: optional
`error` (its `message`), optional `tokenProperties`, optional
`riskAnalysis`. -/
structure RecaptchaResponse where
  error : Option String
  tokenProperties : Option TokenProperties
  riskAnalysis : Option RiskAnalysis
deriving DecidableEq, Repr

/-- Outcome of the HTTPS request to the verification service: a
transport error (`req.on('error')`), a response body that is not
parseable JSON, or a parsed response. -/
inductive VerifyNet where
  | transportErr
  | badJson
  | ok (r : RecaptchaResponse)
deriving DecidableEq, Repr

/-- The object `verifyRecaptcha` resolves with: `success`, optional
`reason`, and `score` (absent in the `response.error` branch). -/
structure VerifyResult where
  success : Bool
  reason : Option String
  score : Option ℚ
deriving DecidableEq, Repr

/-- Line 130: `response.tokenProperties?.valid === true` (an absent
`tokenProperties` yields `undefined`, which is not `=== true`). -/
def tokenValidOf (r : RecaptchaResponse) : Bool :=
  match r.tokenProperties with
  | some tp => tp.valid
  | none => false

/-- Line 131: `response.tokenProperties?.action === expectedAction`. -/
def actionMatchOf (r : RecaptchaResponse) (expectedAction : String) : Bool :=
  match r.tokenProperties with
  | some tp => tp.action = some expectedAction
  | none => false

/-- Line 132: `response.riskAnalysis?.score || 0` (an absent
`riskAnalysis` or score defaults to 0; a present score of 0 is also
falsy and yields the same 0). -/
def responseScore (r : RecaptchaResponse) : ℚ :=
  match r.riskAnalysis with
  | some ra => ra.score.getD 0
  | none => 0

/-- Lines 125-140: evaluation of a parsed verification response. -/
def evalRecaptchaResponse (r : RecaptchaResponse) (expectedAction : String) :
    VerifyResult :=
  match r.error with
  | some msg => ⟨false, some msg, none⟩
  | none =>
    if !tokenValidOf r then ⟨false, some "Invalid token", some 0⟩
    else if !actionMatchOf r expectedAction then
      ⟨false, some "Action mismatch", some (responseScore r)⟩
    else ⟨true, none, some (responseScore r)⟩

/-- `verifyRecaptcha` (lines 96-151): the promise rejects (`.error`) on
a transport error or unparseable JSON, otherwise resolves with the
evaluated response. -/
def verifyRecaptcha (net : VerifyNet) (expectedAction : String) :
    Except Unit VerifyResult :=
  match net with
  | .transportErr => .error ()
  | .badJson => .error ()
  | .ok r => .ok (evalRecaptchaResponse r expectedAction)

/-- Line 57: `recaptchaResult.score < RECAPTCHA_SCORE_THRESHOLD`.  An
absent score is `undefined` in JS and every comparison with `undefined`
is false. -/
def scoreLt (score : Option ℚ) (threshold : ℚ) : Bool :=
  match score with
  | some s => s < threshold
  | none => false

/-! ## Email dispatch (lines 153-175) -/

/-- The SES `SendEmailCommand` parameters `sendEmail` builds. -/
structure EmailParams where
  toAddresses : List String
  bodyText : String
  subjectLine : String
  source : String
deriving DecidableEq, Repr

/-- Line 161: the plaintext email body. -/
def emailText (s : Submission) : String :=
  "From: " ++ s.name ++ "\n\nEmail: " ++ s.email ++ "\n\nSubject: " ++
    s.subject ++ "\n\nMessage: " ++ s.message

/-- `sendEmail` (lines 153-175): the parameters of the single
`ses.send` call. -/
def sendEmailParams (cfg : Config) (s : Submission) : EmailParams :=
  ⟨[cfg.receiver], emailText s, cfg.emailSubject, cfg.sender⟩

/-! ## The handler (lines 32-94) -/

/-- Outcomes of the external calls an invocation may make: the secret
store, the verification HTTPS request, and whether `ses.send`
succeeds. -/
structure World where
  secretResult : Except Unit String
  verifyNet : VerifyNet
  emailOk : Bool
deriving Repr

/-- The HTTP-style response the handler returns: status code, the
`Content-Type` header value, and the JSON body's `result` and optional
`reason` fields. -/
structure RelayResponse where
  statusCode : Nat
  contentType : String
  result : String
  reason : Option String
deriving DecidableEq, Repr

/-- The 200 `{result: 'Success'}` response (lines 81-85). -/
def respSuccess : RelayResponse :=
  ⟨200, "application/json", "Success", none⟩

/-- A `{result: 'Failed', reason: ...}` response. -/
def respFailed (code : Nat) (reason : String) : RelayResponse :=
  ⟨code, "application/json", "Failed", some reason⟩

/-- Everything observable about one invocation: the returned response
(`none` models an uncaught exception), the number of secret-store and
verification calls made, the parameters of each `ses.send` call, and
the cache value after the invocation. -/
structure HandleOut where
  response : Option RelayResponse
  secretCalls : Nat
  verifyCalls : Nat
  emails : List EmailParams
  newCache : Option String
deriving DecidableEq, Repr

/-- `exports.handler` (lines 32-94), with the module-level cache
threaded and the external-call outcomes drawn from `w`. -/
def handle (cfg : Config) (cache : Option String) (w : World) (e : Event) :
    HandleOut :=
  match normalizeBody e with
  | none =>
    -- JSON.parse threw outside any try/catch: the handler rejects.
    ⟨none, 0, 0, [], cache⟩
  | some body =>
    match getRecaptchaApiKey cache w.secretResult with
    | (n, .error _, cache') =>
      ⟨some (respFailed 500 "reCAPTCHA service error"), n, 0, [], cache'⟩
    | (n, .ok _, cache') =>
      match verifyRecaptcha w.verifyNet "contact_submit" with
      | .error _ =>
        ⟨some (respFailed 500 "reCAPTCHA service error"), n, 1, [], cache'⟩
      | .ok vr =>
        if !vr.success then
          ⟨some (respFailed 400 "reCAPTCHA verification failed"), n, 1, [],
            cache'⟩
        else if scoreLt vr.score cfg.threshold then
          ⟨some (respFailed 400 "Submission blocked"), n, 1, [], cache'⟩
        else if w.emailOk then
          ⟨some respSuccess, n, 1, [sendEmailParams cfg body], cache'⟩
        else
          ⟨some (respFailed 500 "Email service error"), n, 1,
            [sendEmailParams cfg body], cache'⟩

/-- A sequence of invocations of a warm instance, threading the
module-level `cachedApiKey` from each invocation to the next; returns
the total number of secret-store calls made. -/
def runHandles (cfg : Config) : Option String → List (World × Event) → Nat
  | _, [] => 0
  | c, (w, e) :: rest =>
    (handle cfg c w e).secretCalls +
      runHandles cfg (handle cfg c w e).newCache rest

/-- `needle` occurs contiguously inside `hay`. -/
def containsSub (hay needle : String) : Prop :=
  ∃ pre post, hay.data = pre ++ needle.data ++ post

/-! ## Helper lemmas -/

/-- Consuming an expected literal prefix succeeds and leaves the rest. -/
theorem dropPre_append (p r : List Char) : dropPre p (p ++ r) = some r := by
  induction p with
  | nil => simp [dropPre]
  | cons c cs ih => simp [dropPre, ih]

/-- Unescaping inverts escaping: parsing an escaped body followed by a
closing quote returns the original body and the rest of the input. -/
theorem unescParse_escape (l r : List Char) :
    unescParse (escape l ++ '"' :: r) = some (l, r) := by
  induction l with
  | nil =>
    rw [escape, List.nil_append, unescParse.eq_def]
    simp
  | cons c cs ih =>
    by_cases h1 : c = '"'
    · subst h1; simp [escape, escChar, unescParse, unescChar, ih]
    · by_cases h2 : c = '\\'
      · subst h2; simp [escape, escChar, unescParse, unescChar, ih]
      · by_cases h3 : c = '\n'
        · subst h3; simp [escape, escChar, unescParse, unescChar, ih]
        · by_cases h4 : c = '\t'
          · subst h4; simp [escape, escChar, unescParse, unescChar, ih]
          · by_cases h5 : c = '\r'
            · subst h5; simp [escape, escChar, unescParse, unescChar, ih]
            · rw [escape]
              simp only [escChar, if_neg h1, if_neg h2, if_neg h3, if_neg h4,
                if_neg h5, List.cons_append, List.nil_append]
              rw [unescParse.eq_def]
              simp [h1, h2, ih]

/-- Parsing a quoted escaped string returns the original string. -/
theorem parseQuoted_escape (l r : List Char) :
    parseQuoted ('"' :: (escape l ++ '"' :: r)) = some (l, r) := by
  simp [parseQuoted, unescParse_escape]

/-- The JSON codec round-trips every submission. -/
theorem parse_stringify (s : Submission) :
    parseSubmissionJson (stringifySubmission s) = some s := by
  obtain ⟨n, e, su, m, t⟩ := s
  simp only [parseSubmissionJson, stringifySubmission, dropPre_append,
    parseQuoted_escape]
  simp

/-- On a payload that normalizes, the handler's secret-store call count
and resulting cache are exactly those of `getRecaptchaApiKey`, whatever
the verification and email outcomes. -/
theorem handle_calls (cfg : Config) (c : Option String) (w : World)
    (e : Event) (body : Submission)
    (hbody : normalizeBody e = some body) :
    (handle cfg c w e).secretCalls = (getRecaptchaApiKey c w.secretResult).1 ∧
    (handle cfg c w e).newCache = (getRecaptchaApiKey c w.secretResult).2.2 := by
  unfold handle
  rw [hbody]
  rcases getRecaptchaApiKey c w.secretResult with ⟨n, k, c'⟩
  cases k with
  | error u => exact ⟨rfl, rfl⟩
  | ok key =>
    cases verifyRecaptcha w.verifyNet "contact_submit" with
    | error u => exact ⟨rfl, rfl⟩
    | ok vr =>
      by_cases hs : !vr.success <;>
        by_cases hl : scoreLt vr.score cfg.threshold = true <;>
        by_cases he : w.emailOk = true <;>
        simp [hs, hl, he]

/-- A warm invocation (truthy cached key) makes no secret-store call
and leaves the cache untouched. -/
theorem handle_warm (cfg : Config) (c : Option String) (w : World) (e : Event)
    (hc : isTruthyStr c = true) :
    (handle cfg c w e).secretCalls = 0 ∧ (handle cfg c w e).newCache = c := by
  cases hn : normalizeBody e with
  | none => simp [handle, hn]
  | some body =>
    have h := handle_calls cfg c w e body hn
    rw [h.1, h.2]
    simp [getRecaptchaApiKey, hc]

/-- Any number of invocations starting from a truthy cached key makes
zero secret-store calls in total. -/
theorem runHandles_warm (cfg : Config) (c : Option String)
    (hc : isTruthyStr c = true) (invs : List (World × Event)) :
    runHandles cfg c invs = 0 := by
  induction invs with
  | nil => rfl
  | cons p rest ih =>
    obtain ⟨w, e⟩ := p
    have h := handle_warm cfg c w e hc
    simp [runHandles, h.1, h.2, ih]

/-! ## Concrete fixtures used by the witnesses -/

/-- A concrete configuration with the default threshold 0.5. -/
def cfgW : Config :=
  ⟨"sender@example.com", "receiver@example.com", "Contact Form Submission",
    1/2⟩

/-- A concrete submission. -/
def subW : Submission :=
  ⟨"Alice", "alice@example.com", "Hi", "Hello there", "tok123"⟩

/-- A concrete passing verification response: valid token, matching
action, score 0.9. -/
def respW : RecaptchaResponse :=
  ⟨none, some ⟨true, some "contact_submit"⟩, some ⟨some (9/10)⟩⟩

/-- A concrete event carrying the submission as an object body. -/
def evW : Event := ⟨EventBody.obj subW, subW⟩

/-! ## Claims -/

/-- C1: for every invocation whose credential resolution succeeds and
whose verification response has no error field, a valid token, the
matching action `contact_submit`, and a score at or above the
configured threshold, and whose email-send call succeeds, the handler
returns 200 `{result: 'Success'}` and makes exactly one email-send
call whose plaintext body contains all four submission fields. -/
theorem c1_success_path (cfg : Config) (cache : Option String) (w : World)
    (e : Event) (body : Submission) (r : RecaptchaResponse)
    (hbody : normalizeBody e = some body)
    (hkey : ∃ n key c',
      getRecaptchaApiKey cache w.secretResult = (n, Except.ok key, c'))
    (hnet : w.verifyNet = VerifyNet.ok r)
    (herr : r.error = none)
    (hvalid : tokenValidOf r = true)
    (haction : actionMatchOf r "contact_submit" = true)
    (hscore : cfg.threshold ≤ responseScore r)
    (hemail : w.emailOk = true) :
    (handle cfg cache w e).response = some respSuccess ∧
    respSuccess.statusCode = 200 ∧ respSuccess.result = "Success" ∧
    ∃ p, (handle cfg cache w e).emails = [p] ∧
      containsSub p.bodyText body.name ∧
      containsSub p.bodyText body.email ∧
      containsSub p.bodyText body.subject ∧
      containsSub p.bodyText body.message := by
  obtain ⟨n, key, c', hk⟩ := hkey
  have hnot : ¬ (responseScore r < cfg.threshold) := not_lt.mpr hscore
  simp only [handle, hbody, hk, hnet, verifyRecaptcha, evalRecaptchaResponse,
    herr, hvalid, haction, Bool.not_true, Bool.false_eq_true, if_false,
    scoreLt, hemail, if_true, hnot, if_true]
  refine ⟨rfl, rfl, rfl, sendEmailParams cfg body, rfl, ?_, ?_, ?_, ?_⟩
  · exact ⟨("From: ").data,
      ("\n\nEmail: ").data ++ body.email.data ++ ("\n\nSubject: ").data ++
        body.subject.data ++ ("\n\nMessage: ").data ++ body.message.data,
      by simp [sendEmailParams, emailText, String.data_append,
        List.append_assoc]⟩
  · exact ⟨("From: ").data ++ body.name.data ++ ("\n\nEmail: ").data,
      ("\n\nSubject: ").data ++ body.subject.data ++ ("\n\nMessage: ").data ++
        body.message.data,
      by simp [sendEmailParams, emailText, String.data_append,
        List.append_assoc]⟩
  · exact ⟨("From: ").data ++ body.name.data ++ ("\n\nEmail: ").data ++
        body.email.data ++ ("\n\nSubject: ").data,
      ("\n\nMessage: ").data ++ body.message.data,
      by simp [sendEmailParams, emailText, String.data_append,
        List.append_assoc]⟩
  · exact ⟨("From: ").data ++ body.name.data ++ ("\n\nEmail: ").data ++
        body.email.data ++ ("\n\nSubject: ").data ++ body.subject.data ++
        ("\n\nMessage: ").data,
      [],
      by simp [sendEmailParams, emailText, String.data_append,
        List.append_assoc]⟩

/-- C1 witness: a concrete passing invocation. -/
theorem c1_success_path_witness :
    (handle cfgW none ⟨Except.ok "key", VerifyNet.ok respW, true⟩
        evW).response = some respSuccess ∧
    respSuccess.statusCode = 200 ∧ respSuccess.result = "Success" ∧
    ∃ p, (handle cfgW none ⟨Except.ok "key", VerifyNet.ok respW, true⟩
        evW).emails = [p] ∧
      containsSub p.bodyText subW.name ∧
      containsSub p.bodyText subW.email ∧
      containsSub p.bodyText subW.subject ∧
      containsSub p.bodyText subW.message :=
  c1_success_path cfgW none ⟨Except.ok "key", VerifyNet.ok respW, true⟩
    evW subW respW rfl ⟨1, "key", some "key", rfl⟩ rfl rfl rfl rfl
    (by norm_num [cfgW, respW, responseScore]) rfl

/-- C2: on a payload whose credential resolution succeeds and whose
verification stage resolves with result `vr`: if `vr` is not a success
(invalid token, action mismatch, or service-provided error field) the
handler answers 400 `reCAPTCHA verification failed` with no email-send
call — regardless of the score, which shows the verification-failure
check is evaluated before the score check; otherwise if the carried
score is strictly below the configured threshold the handler answers
400 `Submission blocked` with no email-send call. -/
theorem c2_decision_gate (cfg : Config) (cache : Option String) (w : World)
    (e : Event) (body : Submission) (vr : VerifyResult)
    (hbody : normalizeBody e = some body)
    (hkey : ∃ n key c',
      getRecaptchaApiKey cache w.secretResult = (n, Except.ok key, c'))
    (hvr : verifyRecaptcha w.verifyNet "contact_submit" = Except.ok vr) :
    (vr.success = false →
      (handle cfg cache w e).response =
        some (respFailed 400 "reCAPTCHA verification failed") ∧
      (handle cfg cache w e).emails = []) ∧
    (vr.success = true → scoreLt vr.score cfg.threshold = true →
      (handle cfg cache w e).response =
        some (respFailed 400 "Submission blocked") ∧
      (handle cfg cache w e).emails = []) := by
  obtain ⟨n, key, c', hk⟩ := hkey
  constructor
  · intro hs
    simp only [handle, hbody, hk, hvr]
    simp [hs]
  · intro hs hlt
    simp only [handle, hbody, hk, hvr]
    simp [hs, hlt]

/-- C2 witness: a concrete invalid-token verification result is
rejected with 400 `reCAPTCHA verification failed`. -/
theorem c2_decision_gate_witness :
    (((⟨false, some "Invalid token", some 0⟩ : VerifyResult).success =
        false →
      (handle cfgW none
          ⟨Except.ok "key", VerifyNet.ok ⟨none, some ⟨false, none⟩, none⟩,
            true⟩ evW).response =
        some (respFailed 400 "reCAPTCHA verification failed") ∧
      (handle cfgW none
          ⟨Except.ok "key", VerifyNet.ok ⟨none, some ⟨false, none⟩, none⟩,
            true⟩ evW).emails = []) ∧
    ((⟨false, some "Invalid token", some 0⟩ : VerifyResult).success =
        true →
      scoreLt (⟨false, some "Invalid token", some 0⟩ : VerifyResult).score
          cfgW.threshold = true →
      (handle cfgW none
          ⟨Except.ok "key", VerifyNet.ok ⟨none, some ⟨false, none⟩, none⟩,
            true⟩ evW).response =
        some (respFailed 400 "Submission blocked") ∧
      (handle cfgW none
          ⟨Except.ok "key", VerifyNet.ok ⟨none, some ⟨false, none⟩, none⟩,
            true⟩ evW).emails = [])) :=
  c2_decision_gate cfgW none
    ⟨Except.ok "key", VerifyNet.ok ⟨none, some ⟨false, none⟩, none⟩, true⟩
    evW subW ⟨false, some "Invalid token", some 0⟩
    rfl ⟨1, "key", some "key", rfl⟩ rfl

/-- C3: when the cache is empty and the secret-store call fails, the
handler answers 500 `reCAPTCHA service error`, makes no verification
and no email-send call, and the cache remains empty so a later
invocation retries. -/
theorem c3_secret_failure (cfg : Config) (w : World) (e : Event)
    (body : Submission)
    (hbody : normalizeBody e = some body)
    (hsec : w.secretResult = Except.error ()) :
    (handle cfg none w e).response =
      some (respFailed 500 "reCAPTCHA service error") ∧
    (handle cfg none w e).verifyCalls = 0 ∧
    (handle cfg none w e).emails = [] ∧
    (handle cfg none w e).newCache = none := by
  simp [handle, hbody, getRecaptchaApiKey, isTruthyStr, hsec]

/-- C3 witness: a concrete secret-store failure. -/
theorem c3_secret_failure_witness :
    (handle cfgW none ⟨Except.error (), VerifyNet.transportErr, true⟩
        evW).response = some (respFailed 500 "reCAPTCHA service error") ∧
    (handle cfgW none ⟨Except.error (), VerifyNet.transportErr, true⟩
        evW).verifyCalls = 0 ∧
    (handle cfgW none ⟨Except.error (), VerifyNet.transportErr, true⟩
        evW).emails = [] ∧
    (handle cfgW none ⟨Except.error (), VerifyNet.transportErr, true⟩
        evW).newCache = none :=
  c3_secret_failure cfgW ⟨Except.error (), VerifyNet.transportErr, true⟩
    evW subW rfl rfl

/-- C4: after a fully successful verification (no error field, valid
token, matching action, score at or above threshold), a failing
email-send call makes the handler answer 500 `Email service error`. -/
theorem c4_email_failure (cfg : Config) (cache : Option String) (w : World)
    (e : Event) (body : Submission) (r : RecaptchaResponse)
    (hbody : normalizeBody e = some body)
    (hkey : ∃ n key c',
      getRecaptchaApiKey cache w.secretResult = (n, Except.ok key, c'))
    (hnet : w.verifyNet = VerifyNet.ok r)
    (herr : r.error = none)
    (hvalid : tokenValidOf r = true)
    (haction : actionMatchOf r "contact_submit" = true)
    (hscore : cfg.threshold ≤ responseScore r)
    (hemail : w.emailOk = false) :
    (handle cfg cache w e).response =
      some (respFailed 500 "Email service error") := by
  obtain ⟨n, key, c', hk⟩ := hkey
  have hnot : ¬ (responseScore r < cfg.threshold) := not_lt.mpr hscore
  simp [handle, hbody, hk, hnet, verifyRecaptcha, evalRecaptchaResponse,
    herr, hvalid, haction, scoreLt, hnot, hemail]

/-- C4 witness: a concrete verified invocation whose email call
throws. -/
theorem c4_email_failure_witness :
    (handle cfgW none ⟨Except.ok "key", VerifyNet.ok respW, false⟩
        evW).response = some (respFailed 500 "Email service error") :=
  c4_email_failure cfgW none ⟨Except.ok "key", VerifyNet.ok respW, false⟩
    evW subW respW rfl ⟨1, "key", some "key", rfl⟩ rfl rfl rfl rfl
    (by norm_num [cfgW, respW, responseScore]) rfl

/-- C5 counterexample: on an error-free response with an invalid token
and `riskAnalysis.score = 0.9`, the verification result's score is the
hardcoded `some 0` (line 135), not the carried 0.9 — so the claim that
the score field equals `riskAnalysis.score` regardless of the branch is
false. -/
theorem c5_counterexample :
    (evalRecaptchaResponse
        ⟨none, some ⟨false, some "contact_submit"⟩, some ⟨some (9/10)⟩⟩
        "contact_submit").score = some 0 ∧
    responseScore
        ⟨none, some ⟨false, some "contact_submit"⟩, some ⟨some (9/10)⟩⟩ =
      9/10 ∧
    (0 : ℚ) ≠ 9/10 := by
  refine ⟨rfl, rfl, by norm_num⟩

/-- C5 (amended): on an error-free response, the result is a success
exactly when the token is valid and the action matches; the result's
score equals `riskAnalysis.score` (default 0) whenever the token is
valid (success or action mismatch), but is hardcoded to 0 when the
token is invalid. -/
theorem c5_amended (r : RecaptchaResponse) (a : String)
    (herr : r.error = none) :
    ((evalRecaptchaResponse r a).success = true ↔
      tokenValidOf r = true ∧ actionMatchOf r a = true) ∧
    (tokenValidOf r = true →
      (evalRecaptchaResponse r a).score = some (responseScore r)) ∧
    (tokenValidOf r = false →
      (evalRecaptchaResponse r a).score = some 0) := by
  simp only [evalRecaptchaResponse, herr]
  by_cases hv : tokenValidOf r <;> by_cases ha : actionMatchOf r a <;>
    simp [hv, ha]

/-- C5 witness: the amended claim at a concrete passing response. -/
theorem c5_amended_witness :
    ((evalRecaptchaResponse respW "contact_submit").success = true ↔
      tokenValidOf respW = true ∧
      actionMatchOf respW "contact_submit" = true) ∧
    (tokenValidOf respW = true →
      (evalRecaptchaResponse respW "contact_submit").score =
        some (responseScore respW)) ∧
    (tokenValidOf respW = false →
      (evalRecaptchaResponse respW "contact_submit").score = some 0) :=
  c5_amended respW "contact_submit" rfl

/-- C6 counterexample: a payload whose `body` field is the string
`"not json"` makes `JSON.parse` (line 38, outside the try/catch) throw,
so the handler rejects instead of returning a response. -/
theorem c6_counterexample :
    (handle cfgW none ⟨Except.ok "key", VerifyNet.ok ⟨none, none, none⟩,
        true⟩ ⟨EventBody.str "not json", subW⟩).response = none := by
  rfl

/-- C6 (amended): for every invocation payload that normalizes — body
absent, body an object, or body a string that parses as a submission —
the handler returns a response with `Content-Type: application/json`
whose body is `{result: 'Success'}` exactly with status 200, or
`{result: 'Failed', reason}` with status 400 or 500. -/
theorem c6_amended (cfg : Config) (cache : Option String) (w : World)
    (e : Event) (body : Submission)
    (hbody : normalizeBody e = some body) :
    ∃ resp, (handle cfg cache w e).response = some resp ∧
      resp.contentType = "application/json" ∧
      ((resp.statusCode = 200 ∧ resp.result = "Success" ∧
          resp.reason = none) ∨
       ((resp.statusCode = 400 ∨ resp.statusCode = 500) ∧
         resp.result = "Failed" ∧ ∃ s, resp.reason = some s)) := by
  unfold handle
  rw [hbody]
  rcases getRecaptchaApiKey cache w.secretResult with ⟨n, k, c'⟩
  cases k with
  | error u => exact ⟨_, rfl, rfl, Or.inr ⟨Or.inr rfl, rfl, _, rfl⟩⟩
  | ok key =>
    cases verifyRecaptcha w.verifyNet "contact_submit" with
    | error u => exact ⟨_, rfl, rfl, Or.inr ⟨Or.inr rfl, rfl, _, rfl⟩⟩
    | ok vr =>
      by_cases hs : !vr.success
      · simp only [hs, if_true]
        exact ⟨_, rfl, rfl, Or.inr ⟨Or.inl rfl, rfl, _, rfl⟩⟩
      · by_cases hl : scoreLt vr.score cfg.threshold = true
        · simp only [hs, hl, if_false, if_true]
          exact ⟨_, rfl, rfl, Or.inr ⟨Or.inl rfl, rfl, _, rfl⟩⟩
        · by_cases he : w.emailOk = true
          · simp only [hs, hl, he, if_false, if_true]
            exact ⟨_, rfl, rfl, Or.inl ⟨rfl, rfl, rfl⟩⟩
          · simp only [hs, hl, he, if_false]
            exact ⟨_, rfl, rfl, Or.inr ⟨Or.inr rfl, rfl, _, rfl⟩⟩

/-- C6 witness: the amended claim at a concrete invocation. -/
theorem c6_amended_witness :
    ∃ resp, (handle cfgW none ⟨Except.ok "key", VerifyNet.ok respW, true⟩
        evW).response = some resp ∧
      resp.contentType = "application/json" ∧
      ((resp.statusCode = 200 ∧ resp.result = "Success" ∧
          resp.reason = none) ∨
       ((resp.statusCode = 400 ∨ resp.statusCode = 500) ∧
         resp.result = "Failed" ∧ ∃ s, resp.reason = some s)) :=
  c6_amended cfgW none ⟨Except.ok "key", VerifyNet.ok respW, true⟩
    evW subW rfl

/-- C7 counterexample: when the secret value is the empty string, a
successful fetch caches it, yet the very next invocation fetches again
(`if (cachedApiKey)` is falsy on `""`): two invocations make two
secret-store calls. -/
theorem c7_counterexample :
    (getRecaptchaApiKey none (Except.ok "")).2.2 = some "" ∧
    (getRecaptchaApiKey (some "") (Except.ok "k")).1 = 1 ∧
    runHandles cfgW none
      [(⟨Except.ok "", VerifyNet.transportErr, true⟩, evW),
       (⟨Except.ok "k", VerifyNet.transportErr, true⟩, evW)] = 2 := by
  refine ⟨rfl, rfl, rfl⟩

/-- C7 (amended): provided the fetched secret value is a non-empty
string, the fetch occurs at most once across a warm instance's
invocations: a first invocation from an empty cache fetches once and
caches the value, after which any number of further invocations makes
zero secret-store calls; a failed fetch leaves the cache empty, so a
subsequent invocation fetches again. -/
theorem c7_amended (cfg : Config) (w : World) (e : Event) (body : Submission)
    (invs : List (World × Event)) (s : String)
    (hs : s ≠ "") (hbody : normalizeBody e = some body)
    (hsec : w.secretResult = Except.ok s) :
    (handle cfg none w e).secretCalls = 1 ∧
    (handle cfg none w e).newCache = some s ∧
    runHandles cfg (some s) invs = 0 ∧
    (∀ (w2 : World) (e2 : Event) (b2 : Submission),
      normalizeBody e2 = some b2 → w2.secretResult = Except.error () →
      (handle cfg none w2 e2).secretCalls = 1 ∧
      (handle cfg none w2 e2).newCache = none) := by
  have h := handle_calls cfg none w e body hbody
  refine ⟨?_, ?_, ?_, ?_⟩
  · rw [h.1]; simp [getRecaptchaApiKey, isTruthyStr, hsec]
  · rw [h.2]; simp [getRecaptchaApiKey, isTruthyStr, hsec]
  · exact runHandles_warm cfg (some s) (by simp [isTruthyStr, hs]) invs
  · intro w2 e2 b2 hb2 hs2
    have h2 := handle_calls cfg none w2 e2 b2 hb2
    rw [h2.1, h2.2]
    simp [getRecaptchaApiKey, isTruthyStr, hs2]

/-- C7 witness: a concrete cold fetch of a non-empty key followed by
two warm invocations. -/
theorem c7_amended_witness :
    (handle cfgW none ⟨Except.ok "key", VerifyNet.ok respW, true⟩
        evW).secretCalls = 1 ∧
    (handle cfgW none ⟨Except.ok "key", VerifyNet.ok respW, true⟩
        evW).newCache = some "key" ∧
    runHandles cfgW (some "key")
      [(⟨Except.ok "other", VerifyNet.ok respW, true⟩, evW),
       (⟨Except.error (), VerifyNet.transportErr, false⟩, evW)] = 0 ∧
    (∀ (w2 : World) (e2 : Event) (b2 : Submission),
      normalizeBody e2 = some b2 → w2.secretResult = Except.error () →
      (handle cfgW none w2 e2).secretCalls = 1 ∧
      (handle cfgW none w2 e2).newCache = none) :=
  c7_amended cfgW ⟨Except.ok "key", VerifyNet.ok respW, true⟩ evW subW
    [(⟨Except.ok "other", VerifyNet.ok respW, true⟩, evW),
     (⟨Except.error (), VerifyNet.transportErr, false⟩, evW)]
    "key" (by decide) rfl rfl

/-- C8: for every submission `s`, an envelope whose `body` is the
JSON-encoded string of `s` and an envelope whose `body` is the object
`s` itself normalize to the identical submission value. -/
theorem c8_normalize_roundtrip (s d : Submission) :
    normalizeBody ⟨EventBody.str (stringifySubmission s), d⟩ = some s ∧
    normalizeBody ⟨EventBody.obj s, d⟩ = some s := by
  constructor
  · simp [normalizeBody, parse_stringify]
  · rfl

/-- C9: a verification transport error or an unparseable verification
response body makes the handler answer 500 `reCAPTCHA service error`
with no email-send call — the very same response value a secret-store
failure produces, so the taxonomy's distinction between the two error
kinds is not observable in the response. -/
theorem c9_verify_transport (cfg : Config) (cache : Option String)
    (w : World) (e : Event) (body : Submission)
    (hbody : normalizeBody e = some body)
    (hkey : ∃ n key c',
      getRecaptchaApiKey cache w.secretResult = (n, Except.ok key, c'))
    (hnet : w.verifyNet = VerifyNet.transportErr ∨
      w.verifyNet = VerifyNet.badJson) :
    (handle cfg cache w e).response =
      some (respFailed 500 "reCAPTCHA service error") ∧
    (handle cfg cache w e).emails = [] ∧
    (∀ (cfg2 : Config) (w2 : World) (e2 : Event) (b2 : Submission),
      normalizeBody e2 = some b2 → w2.secretResult = Except.error () →
      (handle cfg2 none w2 e2).response = (handle cfg cache w e).response) := by
  obtain ⟨n, key, c', hk⟩ := hkey
  have hmain : (handle cfg cache w e).response =
      some (respFailed 500 "reCAPTCHA service error") ∧
      (handle cfg cache w e).emails = [] := by
    rcases hnet with h | h <;> simp [handle, hbody, hk, h, verifyRecaptcha]
  refine ⟨hmain.1, hmain.2, ?_⟩
  intro cfg2 w2 e2 b2 hb2 hs2
  rw [hmain.1]
  simp [handle, hb2, getRecaptchaApiKey, isTruthyStr, hs2]

/-- C9 witness: a concrete transport failure of the verification
call. -/
theorem c9_verify_transport_witness :
    (handle cfgW none ⟨Except.ok "key", VerifyNet.transportErr, true⟩
        evW).response = some (respFailed 500 "reCAPTCHA service error") ∧
    (handle cfgW none ⟨Except.ok "key", VerifyNet.transportErr, true⟩
        evW).emails = [] ∧
    (∀ (cfg2 : Config) (w2 : World) (e2 : Event) (b2 : Submission),
      normalizeBody e2 = some b2 → w2.secretResult = Except.error () →
      (handle cfg2 none w2 e2).response =
        (handle cfgW none ⟨Except.ok "key", VerifyNet.transportErr, true⟩
          evW).response) :=
  c9_verify_transport cfgW none
    ⟨Except.ok "key", VerifyNet.transportErr, true⟩ evW subW
    rfl ⟨1, "key", some "key", rfl⟩ (Or.inl rfl)

/-- C10: the verification stage is total on every parseable error-free
response: a wholly absent `tokenProperties` is treated as an invalid
token and answered 400 `reCAPTCHA verification failed`; a valid-token,
matching-action response with no `riskAnalysis` (or no score in it)
carries score 0 and, under the default threshold 0.5, is answered 400
`Submission blocked`. -/
theorem c10_missing_fields (cfg : Config) (cache : Option String)
    (w : World) (e : Event) (body : Submission) (r : RecaptchaResponse)
    (hbody : normalizeBody e = some body)
    (hkey : ∃ n key c',
      getRecaptchaApiKey cache w.secretResult = (n, Except.ok key, c'))
    (hth : cfg.threshold = 1/2)
    (hnet : w.verifyNet = VerifyNet.ok r)
    (herr : r.error = none) :
    (r.tokenProperties = none →
      (handle cfg cache w e).response =
        some (respFailed 400 "reCAPTCHA verification failed")) ∧
    (r.tokenProperties = some ⟨true, some "contact_submit"⟩ →
      (r.riskAnalysis = none ∨ r.riskAnalysis = some ⟨none⟩) →
      (handle cfg cache w e).response =
        some (respFailed 400 "Submission blocked")) := by
  obtain ⟨n, key, c', hk⟩ := hkey
  constructor
  · intro htp
    simp [handle, hbody, hk, hnet, verifyRecaptcha, evalRecaptchaResponse,
      herr, tokenValidOf, htp]
  · intro htp hra
    have hv : tokenValidOf r = true := by simp [tokenValidOf, htp]
    have ha : actionMatchOf r "contact_submit" = true := by
      simp [actionMatchOf, htp]
    have hsc : responseScore r = 0 := by
      rcases hra with h | h <;> simp [responseScore, h]
    have hlt : scoreLt (some (responseScore r)) cfg.threshold = true := by
      rw [hsc, hth]
      simp [scoreLt]
    simp [handle, hbody, hk, hnet, verifyRecaptcha, evalRecaptchaResponse,
      herr, hv, ha, hlt]

/-- C10 witness: a concrete valid-token, matching-action response with
no `riskAnalysis` at all is blocked under the default threshold. -/
theorem c10_missing_fields_witness :
    ((⟨none, some ⟨true, some "contact_submit"⟩, none⟩ :
        RecaptchaResponse).tokenProperties = none →
      (handle cfgW none
          ⟨Except.ok "key",
            VerifyNet.ok ⟨none, some ⟨true, some "contact_submit"⟩, none⟩,
            true⟩ evW).response =
        some (respFailed 400 "reCAPTCHA verification failed")) ∧
    ((⟨none, some ⟨true, some "contact_submit"⟩, none⟩ :
        RecaptchaResponse).tokenProperties =
          some ⟨true, some "contact_submit"⟩ →
      ((⟨none, some ⟨true, some "contact_submit"⟩, none⟩ :
          RecaptchaResponse).riskAnalysis = none ∨
        (⟨none, some ⟨true, some "contact_submit"⟩, none⟩ :
          RecaptchaResponse).riskAnalysis = some ⟨none⟩) →
      (handle cfgW none
          ⟨Except.ok "key",
            VerifyNet.ok ⟨none, some ⟨true, some "contact_submit"⟩, none⟩,
            true⟩ evW).response =
        some (respFailed 400 "Submission blocked")) :=
  c10_missing_fields cfgW none
    ⟨Except.ok "key",
      VerifyNet.ok ⟨none, some ⟨true, some "contact_submit"⟩, none⟩, true⟩
    evW subW ⟨none, some ⟨true, some "contact_submit"⟩, none⟩
    rfl ⟨1, "key", some "key", rfl⟩ rfl rfl rfl

end ContactForm
